import Mathlib

/-!
Verification of DeviceConfig.h

A verification development for the configuration header of the Braccio
firmware.  The header consists of four object-like preprocessor definitions:

    #define WLAN_SSID           "<YOUR-SSID>"
    #define WLAN_PASSWORD       "<YOUR-CREDENTIALS>"
    #define HOSTNAME            "braccio1"
    #define HTTP_SERVER_PORT    80

Each definition is embedded as a Lean constant of the same name.  On top of
the constants the header is also embedded as the table of definitions the
preprocessor holds after reading it, together with the substitution the
preprocessor performs on a directive-free run of a consumer's tokens.
-/

namespace DeviceConfig

/-! ## The four definitions of the header -/

/-- Line 7 of the header: the replacement of WLAN_SSID. -/
def WLAN_SSID : String := "<YOUR-SSID>"

/-- Line 8 of the header: the replacement of WLAN_PASSWORD. -/
def WLAN_PASSWORD : String := "<YOUR-CREDENTIALS>"

/-- Line 11 of the header: the replacement of HOSTNAME. -/
def HOSTNAME : String := "braccio1"

/-- Line 12 of the header: the replacement of HTTP_SERVER_PORT, a decimal
integer literal (of C type int). -/
def HTTP_SERVER_PORT : Int := 80

/-! ## The header as seen by the preprocessor -/

/-- Preprocessing tokens, as far as the header and its consumers need them:
identifiers, string literals, integer literals, and any other token. -/
inductive Token where
  | ident (name : String)
  | strLit (value : String)
  | intLit (value : Int)
  | other (text : String)
  deriving DecidableEq, Repr

/-- One object-like definition: the defined name and its replacement token. -/
structure Define where
  name : String
  body : Token
  deriving DecidableEq, Repr

/-- The definitions of DeviceConfig.h, in the order of the file. -/
def defines : List Define :=
  [ ⟨"WLAN_SSID", Token.strLit WLAN_SSID⟩,
    ⟨"WLAN_PASSWORD", Token.strLit WLAN_PASSWORD⟩,
    ⟨"HOSTNAME", Token.strLit HOSTNAME⟩,
    ⟨"HTTP_SERVER_PORT", Token.intLit HTTP_SERVER_PORT⟩ ]

/-- The replacement of a name in a table of definitions, when it has one. -/
def lookupDefine : List Define → String → Option Token
  | [], _ => none
  | d :: ds, n => if d.name = n then some d.body else lookupDefine ds n

/-- Substitution on one token: an identifier that names a definition is
replaced by the definition's body, every other token is left alone.  (The
replacement is not scanned again: every body in the header is a literal.) -/
def expandToken (defs : List Define) : Token → Token
  | Token.ident n =>
    match lookupDefine defs n with
    | some body => body
    | none => Token.ident n
  | t => t

/-- Substitution on a run of ordinary text of a consumer: a sequence of tokens
that holds no directive line and no invocation of a function-like macro.
Directives (which change the table of definitions) and the operands of the
stringizing and pasting operators (which are not replaced) are not modelled,
and the development applies this function to directive-free runs only. -/
def preprocess (defs : List Define) (ts : List Token) : List Token :=
  ts.map (expandToken defs)

/-! ## Predicates on configuration values -/

/-- An ASCII letter, a digit or a hyphen. -/
def isLabelChar (c : Char) : Bool :=
  c.isAlpha || c.isDigit || c == '-'

/-- DNS label syntax: non-empty, at most 63 characters, letters, digits and
hyphens only, and no hyphen in the first or the last position. -/
def IsDnsLabel (s : String) : Prop :=
  s ≠ "" ∧ s.length ≤ 63 ∧ (∀ c ∈ s.toList, isLabelChar c = true) ∧
    s.toList.head? ≠ some '-' ∧ s.toList.getLast? ≠ some '-'

instance (s : String) : Decidable (IsDnsLabel s) := by
  unfold IsDnsLabel; infer_instance

/-- Shape test for a placeholder: the text starts with an opening angle
bracket and ends with a closing one. -/
def IsBracketed (s : String) : Prop :=
  s.toList.head? = some '<' ∧ s.toList.getLast? = some '>'

instance (s : String) : Decidable (IsBracketed s) := by
  unfold IsBracketed; infer_instance

/-- Length validation of an 802.11 SSID: between 1 and 32 bytes. -/
def ssidLengthOk (s : String) : Bool :=
  decide (1 ≤ s.utf8ByteSize) && decide (s.utf8ByteSize ≤ 32)

/-- Length validation of a WPA passphrase: between 8 and 63 characters. -/
def passphraseLengthOk (s : String) : Bool :=
  decide (8 ≤ s.length) && decide (s.length ≤ 63)

/-! ## The claims -/

/-- C1, as stated, fails: the four values are not "braccio1", the empty
string, "braccio1" and 80, because WLAN_SSID and WLAN_PASSWORD hold the
placeholder texts. -/
theorem C1_values_not_scenario :
    ¬ (WLAN_SSID = "braccio1" ∧ WLAN_PASSWORD = "" ∧ HOSTNAME = "braccio1" ∧
        HTTP_SERVER_PORT = 80) := by
  decide

/-- C1, amended: the four values a consumer receives are exactly
SSID = "<YOUR-SSID>", Password = "<YOUR-CREDENTIALS>", Hostname = "braccio1"
and Port = 80, both as constants and as the result of substituting the four
names in a consumer's token stream. -/
theorem C1_values_received :
    (WLAN_SSID = "<YOUR-SSID>" ∧ WLAN_PASSWORD = "<YOUR-CREDENTIALS>" ∧
      HOSTNAME = "braccio1" ∧ HTTP_SERVER_PORT = 80) ∧
    preprocess defines
        [Token.ident "WLAN_SSID", Token.ident "WLAN_PASSWORD",
         Token.ident "HOSTNAME", Token.ident "HTTP_SERVER_PORT"] =
      [Token.strLit "<YOUR-SSID>", Token.strLit "<YOUR-CREDENTIALS>",
       Token.strLit "braccio1", Token.intLit 80] := by
  decide

/-- C2: HOSTNAME is a valid DNS label: it is non-empty, at most 63 characters
long, every character is an ASCII letter, a digit or a hyphen, and neither
the first nor the last character is a hyphen. -/
theorem C2_hostname_is_dns_label :
    HOSTNAME ≠ "" ∧ HOSTNAME.length ≤ 63 ∧
    (∀ c ∈ HOSTNAME.toList,
      ('a' ≤ c ∧ c ≤ 'z') ∨ ('A' ≤ c ∧ c ≤ 'Z') ∨ ('0' ≤ c ∧ c ≤ '9') ∨ c = '-') ∧
    HOSTNAME.toList.head? ≠ some '-' ∧ HOSTNAME.toList.getLast? ≠ some '-' ∧
    IsDnsLabel HOSTNAME := by
  decide

/-- C3: HTTP_SERVER_PORT lies in the range 0 to 65535, is unchanged by
reduction modulo 2^16 (it fits an unsigned 16-bit port without wrap-around),
and is the conventional HTTP port 80. -/
theorem C3_port_in_range :
    0 ≤ HTTP_SERVER_PORT ∧ HTTP_SERVER_PORT ≤ 65535 ∧
    HTTP_SERVER_PORT % 2 ^ 16 = HTTP_SERVER_PORT ∧ HTTP_SERVER_PORT = 80 := by
  decide

/-- C4: the credentials keep their placeholder defaults: WLAN_SSID is exactly
"<YOUR-SSID>" and WLAN_PASSWORD is exactly "<YOUR-CREDENTIALS>". -/
theorem C4_placeholders_preserved :
    WLAN_SSID = "<YOUR-SSID>" ∧ WLAN_PASSWORD = "<YOUR-CREDENTIALS>" ∧
    lookupDefine defines "WLAN_SSID" = some (Token.strLit "<YOUR-SSID>") ∧
    lookupDefine defines "WLAN_PASSWORD" = some (Token.strLit "<YOUR-CREDENTIALS>") := by
  decide

/-- C5: WLAN_SSID is a non-empty string. -/
theorem C5_ssid_nonempty :
    WLAN_SSID ≠ "" ∧ 0 < WLAN_SSID.length ∧ 0 < WLAN_SSID.utf8ByteSize := by
  decide

/-- C7: the placeholders are recognisable by shape: WLAN_SSID and
WLAN_PASSWORD start with an opening and end with a closing angle bracket,
HOSTNAME does not, and neither placeholder is a valid DNS label, each holding
a character that is not a letter, digit or hyphen. -/
theorem C7_placeholders_bracketed :
    IsBracketed WLAN_SSID ∧ IsBracketed WLAN_PASSWORD ∧ ¬ IsBracketed HOSTNAME ∧
    ¬ IsDnsLabel WLAN_SSID ∧ ¬ IsDnsLabel WLAN_PASSWORD ∧
    (∃ c ∈ WLAN_SSID.toList, isLabelChar c = false) ∧
    (∃ c ∈ WLAN_PASSWORD.toList, isLabelChar c = false) := by
  decide

/-- C8: both placeholders pass the length validation of real credentials:
WLAN_SSID is between 1 and 32 bytes long and WLAN_PASSWORD is between 8 and
63 characters long. -/
theorem C8_placeholders_pass_length_check :
    (1 ≤ WLAN_SSID.utf8ByteSize ∧ WLAN_SSID.utf8ByteSize ≤ 32) ∧
    (8 ≤ WLAN_PASSWORD.length ∧ WLAN_PASSWORD.length ≤ 63) ∧
    ssidLengthOk WLAN_SSID = true ∧ passphraseLengthOk WLAN_PASSWORD = true := by
  decide

end DeviceConfig
